import Mathlib

/-!
Verification of the cert-parser repository: a shallow embedding of the
railway Result core (python_framework/src/railway), the CMS Master List
extraction engine, the transactional replace repository and the pipeline
orchestrator (src/cert_parser), together with theorems settling the
frozen claims about them.

Conventions of the embedding:
  - Python byte strings are `List Nat` (one Nat per byte).
  - A raised Python exception is a `PyException` value carried in `Except`.
  - `uuid.uuid4()` is modelled by a fresh-identifier supply (a `Nat`
    counter threaded through the computation in creation order).
  - Calls into the external libraries asn1crypto / cryptography / psycopg
    are modelled by oracle functions supplied as parameters; the code of
    this repository is embedded around them statement by statement.
-/

namespace Railway

/-- Model of a Python exception object: its class name and its message. -/
structure PyException where
  excName : String
  excMsg : String
  deriving DecidableEq, Repr

/-- Embeds the ErrorCode enum of python_framework/src/railway/failure.py
(13 members, client 4xx range then server 5xx range). -/
inductive ErrorCode where
  | VALIDATION_ERROR
  | AUTHENTICATION_ERROR
  | AUTHORIZATION_ERROR
  | NOT_FOUND
  | BUSINESS_RULE_ERROR
  | RATE_LIMIT_ERROR
  | TECHNICAL_ERROR
  | DATABASE_ERROR
  | CONFIGURATION_ERROR
  | EXTERNAL_SERVICE_ERROR
  | SERVICE_UNAVAILABLE_ERROR
  | TIMEOUT_ERROR
  | UNKNOWN_ERROR
  deriving DecidableEq, Repr

/-- Embeds FailureDescription (failure.py): code, message, optional causing
exception, creation timestamp.  The timestamp default factory
datetime.now(UTC) is modelled by the opaque tick 0 at every creation site. -/
structure FailureDescription where
  code : ErrorCode
  message : String
  exception : Option PyException := none
  timestamp : Nat := 0
  deriving DecidableEq, Repr

/-- Embeds the two-track Result type of result.py: Success(value) or
Failure(error). -/
inductive Result (T : Type) where
  | Success (value : T)
  | Failure (error : FailureDescription)
  deriving DecidableEq, Repr

namespace Result

/-- Embeds Result.is_success (result.py line 71). -/
def is_success {T : Type} : Result T → Bool
  | .Success _ => true
  | .Failure _ => false

/-- Embeds Result.is_failure (result.py line 75). -/
def is_failure {T : Type} : Result T → Bool
  | .Success _ => false
  | .Failure _ => true

/-- Embeds Result.map (result.py line 129): transform a Success value,
pass a Failure through unchanged. -/
def map {T U : Type} (r : Result T) (mapper : T → U) : Result U :=
  match r with
  | .Success v => .Success (mapper v)
  | .Failure err => .Failure err

/-- Embeds Result.map_failure (result.py line 145). -/
def map_failure {T : Type} (r : Result T)
    (mapper : FailureDescription → FailureDescription) : Result T :=
  match r with
  | .Success v => .Success v
  | .Failure err => .Failure (mapper err)

/-- Embeds Result.flat_map (result.py line 160): chain a Result-returning
function, short-circuit on an existing Failure without invoking it. -/
def flat_map {T U : Type} (r : Result T) (mapper : T → Result U) : Result U :=
  match r with
  | .Success v => mapper v
  | .Failure err => .Failure err

/-- Embeds the static factory Result.success (result.py line 280). -/
def success {T : Type} (value : T) : Result T :=
  .Success value

/-- Embeds the static factory Result.failure (result.py line 290):
wraps code, message and optional exception in a FailureDescription. -/
def failure {T : Type} (code : ErrorCode) (message : String)
    (exception : Option PyException) : Result T :=
  .Failure { code := code, message := message, exception := exception }

/-- Embeds Result.from_computation (result.py line 306): run a thunk that
may raise; a raised exception is caught and converted to
Result.failure(error_code, error_message, e). -/
def from_computation {T : Type} (computation : Unit → Except PyException T)
    (error_code : ErrorCode) (error_message : String) : Result T :=
  match computation () with
  | .ok v => success v
  | .error e => failure error_code error_message (some e)

end Result

/-- Embeds Success.__init__ (result.py line 469): the constructor receives
a value that may be None (modelled by Option) and raises TypeError when it
is None; otherwise the Success object wrapping the value is produced. -/
def successInit {T : Type} (value : Option T) : Except PyException (Result T) :=
  match value with
  | none => .error { excName := "TypeError", excMsg := "Success value must not be None" }
  | some v => .ok (.Success v)

/-- Embeds Failure.__init__ (result.py line 504): the constructor receives
an error description that may be None and raises TypeError when it is
None; otherwise the Failure object wrapping it is produced. -/
def failureInit {T : Type} (error : Option FailureDescription) :
    Except PyException (Result T) :=
  match error with
  | none => .error { excName := "TypeError", excMsg := "Failure error must not be None" }
  | some e => .ok (.Failure e)

/-- Embeds the observable behaviour of == on Result values:
Success.__eq__ (result.py line 485) compares wrapped values when both are
Success, Failure.__eq__ (result.py line 516) compares code and message
when both are Failure (exception and timestamp are not consulted), and a
mixed comparison has both methods return NotImplemented so Python falls
back to identity, which is False for two distinct objects. -/
def resultEq {T : Type} [DecidableEq T] : Result T → Result T → Bool
  | .Success a, .Success b => a == b
  | .Failure a, .Failure b => a.code == b.code && a.message == b.message
  | _, _ => false

/-- Model of an execution context (execution.py): the single capability
execute(computation) over a thunk producing a Result. -/
structure ExecutionContext (T : Type) where
  execute : (Unit → Result T) → Result T

/-- The state of a ComposableExecutionContext object (execution.py line 148):
the ordered list of wrapped contexts. -/
structure ComposableExecutionContext (T : Type) where
  contexts : List (ExecutionContext T)

/-- Embeds ComposableExecutionContext.__init__ (execution.py line 163):
zero contexts raise ValueError, otherwise the contexts are stored in the
order given. -/
def composableInit {T : Type} (contexts : List (ExecutionContext T)) :
    Except PyException (ComposableExecutionContext T) :=
  match contexts with
  | [] => .error { excName := "ValueError", excMsg := "At least one execution context is required" }
  | _ => .ok { contexts := contexts }

/-- Embeds ComposableExecutionContext.execute (execution.py line 168):
starting from the computation, the loop over reversed(contexts) wraps it
with each context in turn, so the first-listed context ends outermost; the
final thunk is then invoked. -/
def ComposableExecutionContext.execute {T : Type}
    (self : ComposableExecutionContext T) (computation : Unit → Result T) : Result T :=
  (self.contexts.reverse.foldl (fun wrapped ctx => fun _ => ctx.execute wrapped) computation) ()

end Railway

namespace CertParser

open Railway

/-- Embeds CertificateRecord (domain/models.py line 18).  uuid4 identifiers
are modelled as Nat and datetimes as Int ticks; every Optional field
defaults to none as in the dataclass. -/
structure CertificateRecord where
  certificate : List Nat
  id : Nat
  subject_key_identifier : Option String := none
  authority_key_identifier : Option String := none
  issuer : Option String := none
  x_500_issuer : Option (List Nat) := none
  source : Option String := none
  isn : Option String := none
  updated_at : Option Int := none
  deriving DecidableEq, Repr

/-- Embeds CrlRecord (domain/models.py line 38). -/
structure CrlRecord where
  crl : List Nat
  id : Nat
  source : Option String := none
  issuer : Option String := none
  country : Option String := none
  updated_at : Option Int := none
  deriving DecidableEq, Repr

/-- Embeds RevokedCertificateRecord (domain/models.py line 55). -/
structure RevokedCertificateRecord where
  id : Nat
  source : Option String := none
  country : Option String := none
  isn : Option String := none
  crl : Option Nat := none
  revocation_reason : Option String := none
  revocation_date : Option Int := none
  updated_at : Option Int := none
  deriving DecidableEq, Repr

/-- Embeds AuthCredentials (domain/models.py line 74). -/
structure AuthCredentials where
  access_token : String
  sfc_token : String
  deriving DecidableEq, Repr

/-- Embeds MasterListPayload (domain/models.py line 92). -/
structure MasterListPayload where
  root_cas : List CertificateRecord := []
  dscs : List CertificateRecord := []
  crls : List CrlRecord := []
  revoked_certificates : List RevokedCertificateRecord := []
  deriving DecidableEq, Repr

/-- Embeds the total_certificates property (domain/models.py line 107). -/
def MasterListPayload.total_certificates (p : MasterListPayload) : Nat :=
  p.root_cas.length + p.dscs.length

/-- Embeds the total_items property (domain/models.py line 111). -/
def MasterListPayload.total_items (p : MasterListPayload) : Nat :=
  p.total_certificates + p.crls.length + p.revoked_certificates.length

/-- Embeds _build_credentials (pipeline.py line 34): acquire the SFC token
with the access token and map the pair into an AuthCredentials value. -/
def buildCredentials (access_token : String)
    (sfcAcquireToken : String → Result String) : Result AuthCredentials :=
  (sfcAcquireToken access_token).map
    (fun sfc_token => { access_token := access_token, sfc_token := sfc_token })

/-- Embeds run_pipeline (pipeline.py line 52): the five ports are modelled
by their Result-returning operations (acquire_token of the access token
provider takes no argument, so its one call is modelled by a Result
value); the stages are chained exactly as in the source via flat_map. -/
def run_pipeline
    (accessAcquireToken : Result String)
    (sfcAcquireToken : String → Result String)
    (download : AuthCredentials → Result (List Nat))
    (parserParse : List Nat → Result MasterListPayload)
    (repositoryStore : MasterListPayload → Result Nat) : Result Nat :=
  (((accessAcquireToken.flat_map
      (fun access_token => buildCredentials access_token sfcAcquireToken)).flat_map
        download).flat_map
          parserParse).flat_map
            repositoryStore

/-- Two lowercase hex digits of one byte, as produced per byte by the
Python bytes.hex() method. -/
def byteHex (b : Nat) : String :=
  String.mk [Nat.digitChar (b / 16 % 16), Nat.digitChar (b % 16)]

/-- Embeds the bytes.hex() calls of cms_parser.py: lowercase hex, two
digits per byte. -/
def bytesHex (bs : List Nat) : String :=
  String.join (bs.map byteHex)

/-- Embeds the Python builtin hex() on the non-negative serial numbers:
0x followed by lowercase hex digits. -/
def pyHex (n : Nat) : String :=
  "0x" ++ String.mk (Nat.toDigits 16 n)

/-- Abstract view of one X.509 name attribute as exposed by the
cryptography library: its OID (dotted string) and its text value. -/
structure NameAttr where
  oid : String
  value : String
  deriving DecidableEq, Repr

/-- The dotted OID of x509.oid.NameOID.COUNTRY_NAME. -/
def countryNameOid : String := "2.5.4.6"

/-- Abstract view of an x509.Certificate object: exactly the members the
code under embedding reads.  ski_extension is the SubjectKeyIdentifier
digest when that extension is present; aki_extension is, when the
AuthorityKeyIdentifier extension is present, its possibly absent
key_identifier. -/
structure X509Certificate where
  issuer_rfc4514 : String
  issuer_public_bytes : List Nat
  serial_number : Nat
  ski_extension : Option (List Nat) := none
  aki_extension : Option (Option (List Nat)) := none
  deriving DecidableEq, Repr

/-- Abstract view of one revoked-certificate entry of a loaded CRL:
serial number, the CRLReason extension value when present, and the
revocation date. -/
structure RevokedCert where
  serial_number : Nat
  reason_ext : Option String := none
  revocation_date_utc : Int
  deriving DecidableEq, Repr

/-- Abstract view of an x509 certificate revocation list object. -/
structure X509Crl where
  issuer_rfc4514 : String
  issuer_attrs : List NameAttr
  revoked : List RevokedCert
  deriving DecidableEq, Repr

/-- Abstract view of a decoded CMS SignedData envelope as asn1crypto
exposes it to the code under embedding: the DER dump of each outer
certificate choice, the eContent octet-string bytes, and the DER dump of
each CRL choice; each component is None when absent from the envelope. -/
structure SignedData where
  certificates : Option (List (List Nat)) := none
  encap_content : Option (List Nat) := none
  crls : Option (List (List Nat)) := none
  deriving DecidableEq, Repr

/-- Abstract view of a decoded CscaMasterList ASN.1 structure: the
version integer and the DER dump of each certificate of certList. -/
structure CscaMasterList where
  version : Int
  cert_list : List (List Nat)
  deriving DecidableEq, Repr

/-- The external decoding functions called by cms_parser.py (asn1crypto
ContentInfo.load and _CscaMasterList.load, cryptography
load_der_x509_certificate and load_der_x509_crl); each call may raise. -/
structure CmsWorld where
  contentInfoLoad : List Nat → Except PyException SignedData
  masterListLoad : List Nat → Except PyException CscaMasterList
  loadDerCertificate : List Nat → Except PyException X509Certificate
  loadDerCrl : List Nat → Except PyException X509Crl

/-- Model of extensions.get_extension_for_class(SubjectKeyIdentifier):
raises ExtensionNotFound when the certificate has no such extension. -/
def getSkiExtension (cert : X509Certificate) : Except PyException (List Nat) :=
  match cert.ski_extension with
  | some digest => .ok digest
  | none => .error { excName := "ExtensionNotFound", excMsg := "subjectKeyIdentifier" }

/-- Model of extensions.get_extension_for_class(AuthorityKeyIdentifier):
raises ExtensionNotFound when the certificate has no such extension. -/
def getAkiExtension (cert : X509Certificate) : Except PyException (Option (List Nat)) :=
  match cert.aki_extension with
  | some key_identifier => .ok key_identifier
  | none => .error { excName := "ExtensionNotFound", excMsg := "authorityKeyIdentifier" }

/-- Embeds _extract_ski (cms_parser.py line 68): the hex digest of the
SubjectKeyIdentifier extension, None when the lookup raises.  The handler
in the source is written `except ExtensionNotFound, ValueError:`, which
Python 3 rejects as a syntax error; this definition gives the handler the
catching behaviour that its docstring and the module tests describe (see
the C7 record for the mismatch). -/
def extractSki (cert : X509Certificate) : Option String :=
  match getSkiExtension cert with
  | .ok digest => some (bytesHex digest)
  | .error _ => none

/-- Embeds _extract_aki (cms_parser.py line 77): the hex key_identifier
of the AuthorityKeyIdentifier extension when present and itself non-null,
None otherwise (same handler caveat as extractSki). -/
def extractAki (cert : X509Certificate) : Option String :=
  match getAkiExtension cert with
  | .ok (some key_identifier) => some (bytesHex key_identifier)
  | .ok none => none
  | .error _ => none

/-- Embeds _der_to_certificate_record (cms_parser.py line 88): load the
DER bytes, take issuer string, issuer public bytes and hex serial number,
attempt SKI and AKI, and build the record; the uuid4 id default is drawn
from the supply. -/
def derToCertificateRecord (W : CmsWorld) (der_bytes : List Nat) (source : String)
    (s : Nat) : Except PyException (CertificateRecord × Nat) :=
  match W.loadDerCertificate der_bytes with
  | .error e => .error e
  | .ok cert =>
    .ok ({ certificate := der_bytes, id := s, subject_key_identifier := extractSki cert, authority_key_identifier := extractAki cert, issuer := some cert.issuer_rfc4514, x_500_issuer := some cert.issuer_public_bytes, source := some source, isn := some (pyHex cert.serial_number) }, s + 1)

/-- Runs a record builder over each list element in order, threading the
fresh-identifier supply and propagating the first raised exception, as
the Python for-loops over certificate sets do. -/
def mapSupply {A B : Type} (f : A → Nat → Except PyException (B × Nat)) :
    List A → Nat → Except PyException (List B × Nat)
  | [], s => .ok ([], s)
  | a :: rest, s =>
    match f a s with
    | .error e => .error e
    | .ok (b, s1) =>
      match mapSupply f rest s1 with
      | .error e => .error e
      | .ok (bs, s2) => .ok (b :: bs, s2)

/-- Runs a non-raising record builder over each list element in order,
threading the fresh-identifier supply (the list comprehension of
_parse_single_crl). -/
def mapSupplyPure {A B : Type} (f : A → Nat → B × Nat) :
    List A → Nat → List B × Nat
  | [], s => ([], s)
  | a :: rest, s =>
    let (b, s1) := f a s
    let (bs, s2) := mapSupplyPure f rest s1
    (b :: bs, s2)

/-- Embeds _extract_outer_certificates (cms_parser.py line 122): the
certificates member of SignedData, None giving the empty list, otherwise
one CertificateRecord per dumped certificate choice in order. -/
def extractOuterCertificates (W : CmsWorld) (signed_data : SignedData)
    (source : String) (s : Nat) : Except PyException (List CertificateRecord × Nat) :=
  match signed_data.certificates with
  | none => .ok ([], s)
  | some certs_set => mapSupply (fun der_bytes => derToCertificateRecord W der_bytes source) certs_set s

/-- Embeds _extract_inner_certificates (cms_parser.py line 138): the
eContent bytes, None giving the empty list, otherwise the CscaMasterList
is loaded and one CertificateRecord is built per certList entry in
order. -/
def extractInnerCertificates (W : CmsWorld) (signed_data : SignedData)
    (source : String) (s : Nat) : Except PyException (List CertificateRecord × Nat) :=
  match signed_data.encap_content with
  | none => .ok ([], s)
  | some inner_bytes =>
    match W.masterListLoad inner_bytes with
    | .error e => .error e
    | .ok master_list => mapSupply (fun der_bytes => derToCertificateRecord W der_bytes source) master_list.cert_list s

/-- Embeds _extract_country_from_issuer (cms_parser.py line 166): the
value of the first issuer attribute whose OID is COUNTRY_NAME, else
None. -/
def extractCountryFromIssuer : List NameAttr → Option String
  | [] => none
  | attr :: rest => if attr.oid = countryNameOid then some attr.value else extractCountryFromIssuer rest

/-- Model of extensions.get_extension_for_class(CRLReason) on a revoked
entry: raises ExtensionNotFound when the entry has no such extension. -/
def getCrlReasonExtension (rc : RevokedCert) : Except PyException String :=
  match rc.reason_ext with
  | some reason => .ok reason
  | none => .error { excName := "ExtensionNotFound", excMsg := "cRLReason" }

/-- Embeds _build_revoked_record (cms_parser.py line 174): reason from the
CRLReason extension when present (same handler caveat as extractSki), hex
serial, the given CRL identifier, revocation date; the uuid4 id default
is drawn from the supply. -/
def buildRevokedRecord (rc : RevokedCert) (crl_id : Option Nat) (source : String)
    (country : Option String) (s : Nat) : RevokedCertificateRecord × Nat :=
  ({ id := s, source := some source, country := country, isn := some (pyHex rc.serial_number), crl := crl_id, revocation_reason := (match getCrlReasonExtension rc with | .ok reason => some reason | .error _ => none), revocation_date := some rc.revocation_date_utc }, s + 1)

/-- Embeds _parse_single_crl (cms_parser.py line 198): load the CRL,
derive issuer string and country, create the CrlRecord (its uuid drawn
first), then one RevokedCertificateRecord per revoked entry carrying
crl_record.id. -/
def parseSingleCrl (W : CmsWorld) (crl_der : List Nat) (source : String) (s : Nat) :
    Except PyException ((CrlRecord × List RevokedCertificateRecord) × Nat) :=
  match W.loadDerCrl crl_der with
  | .error e => .error e
  | .ok crl_obj =>
    let country := extractCountryFromIssuer crl_obj.issuer_attrs
    let crl_record : CrlRecord := { crl := crl_der, id := s, source := some source, issuer := some crl_obj.issuer_rfc4514, country := country }
    let (revoked_records, s1) := mapSupplyPure (fun rc => buildRevokedRecord rc (some crl_record.id) source country) crl_obj.revoked (s + 1)
    .ok ((crl_record, revoked_records), s1)

/-- The loop body of _extract_crls (cms_parser.py line 234): for each
dumped CRL choice in order, parse it, append its CrlRecord and extend the
revoked records. -/
def extractCrlsLoop (W : CmsWorld) (source : String) :
    List (List Nat) → Nat →
    Except PyException ((List CrlRecord × List RevokedCertificateRecord) × Nat)
  | [], s => .ok (([], []), s)
  | crl_der :: rest, s =>
    match parseSingleCrl W crl_der source s with
    | .error e => .error e
    | .ok ((crl_record, revoked), s1) =>
      match extractCrlsLoop W source rest s1 with
      | .error e => .error e
      | .ok ((crl_records, revoked_records), s2) =>
        .ok ((crl_record :: crl_records, revoked ++ revoked_records), s2)

/-- Embeds _extract_crls (cms_parser.py line 222): the crls member of
SignedData, None giving two empty lists, otherwise the loop over the
dumped CRL choices. -/
def extractCrls (W : CmsWorld) (signed_data : SignedData) (source : String) (s : Nat) :
    Except PyException ((List CrlRecord × List RevokedCertificateRecord) × Nat) :=
  match signed_data.crls with
  | none => .ok (([], []), s)
  | some crls_set => extractCrlsLoop W source crls_set s

/-- Embeds CmsMasterListParser._do_parse (cms_parser.py line 275): load
the envelope, extract outer certificates, inner certificates and CRLs in
that order, and combine with root_cas = inner_certs + outer_certs and an
always empty document-signer collection. -/
def doParse (W : CmsWorld) (raw_bin : List Nat) (s : Nat) :
    Except PyException (MasterListPayload × Nat) :=
  match W.contentInfoLoad raw_bin with
  | .error e => .error e
  | .ok signed_data =>
    match extractOuterCertificates W signed_data "icao-masterlist" s with
    | .error e => .error e
    | .ok (outer_certs, s1) =>
      match extractInnerCertificates W signed_data "icao-masterlist" s1 with
      | .error e => .error e
      | .ok (inner_certs, s2) =>
        match extractCrls W signed_data "icao-masterlist" s2 with
        | .error e => .error e
        | .ok ((crl_records, revoked_records), s3) =>
          .ok ({ root_cas := inner_certs ++ outer_certs, dscs := [], crls := crl_records, revoked_certificates := revoked_records }, s3)

/-- Embeds CmsMasterListParser.parse (cms_parser.py line 254): _do_parse
wrapped in Result.from_computation with TECHNICAL_ERROR and the fixed
message, the designated boundary that catches every raised exception. -/
def CmsMasterListParser.parse (W : CmsWorld) (raw_bin : List Nat) (s : Nat) :
    Result MasterListPayload :=
  Result.from_computation (fun _ => (doParse W raw_bin s).map Prod.fst)
    ErrorCode.TECHNICAL_ERROR "Failed to parse CMS Master List binary"

/-- Concrete envelope world used by witness theorems: one outer
certificate, two inner certificates, no CRLs. -/
def fixtureWorldA : CmsWorld :=
  { contentInfoLoad := fun _ => .ok { certificates := some [[1]], encap_content := some [0], crls := none },
    masterListLoad := fun _ => .ok { version := 0, cert_list := [[2], [3]] },
    loadDerCertificate := fun _ => .ok { issuer_rfc4514 := "CN=Fixture", issuer_public_bytes := [48], serial_number := 26, ski_extension := some [171], aki_extension := some (some [205]) },
    loadDerCrl := fun _ => .error { excName := "ValueError", excMsg := "unused" } }

/-- Concrete envelope world used by witness theorems: no certificates,
one CRL with two revoked entries. -/
def fixtureWorldB : CmsWorld :=
  { contentInfoLoad := fun _ => .ok { certificates := none, encap_content := none, crls := some [[7]] },
    masterListLoad := fun _ => .error { excName := "ValueError", excMsg := "unused" },
    loadDerCertificate := fun _ => .error { excName := "ValueError", excMsg := "unused" },
    loadDerCrl := fun _ => .ok { issuer_rfc4514 := "CN=CA,C=DE", issuer_attrs := [{ oid := "2.5.4.6", value := "DE" }], revoked := [{ serial_number := 1, revocation_date_utc := 5 }, { serial_number := 2, reason_ext := some "keyCompromise", revocation_date_utc := 6 }] } }

/-- Concrete envelope world for the extension-absence evaluation: one
outer certificate carrying neither a SubjectKeyIdentifier nor an
AuthorityKeyIdentifier extension. -/
def fixtureWorldC : CmsWorld :=
  { contentInfoLoad := fun _ => .ok { certificates := some [[9]], encap_content := none, crls := none },
    masterListLoad := fun _ => .error { excName := "ValueError", excMsg := "unused" },
    loadDerCertificate := fun _ => .ok { issuer_rfc4514 := "CN=Bare", issuer_public_bytes := [48], serial_number := 0 },
    loadDerCrl := fun _ => .error { excName := "ValueError", excMsg := "unused" } }

/-- One row of certs.root_ca as inserted by _insert_root_cas
(repository.py line 40): the ten parameter values of its INSERT. -/
structure RootCaRow where
  id : Nat
  certificate : List Nat
  subject_key_identifier : Option String
  authority_key_identifier : Option String
  issuer : Option String
  master_list_issuer : Option String
  x_500_issuer : Option (List Nat)
  source : Option String
  isn : Option String
  updated_at : Option Int
  deriving DecidableEq, Repr

/-- One row of certs.dsc as inserted by _insert_dscs (repository.py
line 47): the nine parameter values of its INSERT. -/
structure DscRow where
  id : Nat
  certificate : List Nat
  subject_key_identifier : Option String
  authority_key_identifier : Option String
  issuer : Option String
  x_500_issuer : Option (List Nat)
  source : Option String
  isn : Option String
  updated_at : Option Int
  deriving DecidableEq, Repr

/-- One row of certs.crls as inserted by _insert_crls (repository.py
line 54). -/
structure CrlRow where
  id : Nat
  crl : List Nat
  source : Option String
  issuer : Option String
  country : Option String
  updated_at : Option Int
  deriving DecidableEq, Repr

/-- One row of certs.revoked_certificate_list as inserted by
_insert_revoked (repository.py line 59). -/
structure RevokedRow where
  id : Nat
  source : Option String
  country : Option String
  isn : Option String
  crl : Option Nat
  revocation_reason : Option String
  revocation_date : Option Int
  updated_at : Option Int
  deriving DecidableEq, Repr

/-- The four tables of the persistence boundary. -/
structure DbState where
  root_ca : List RootCaRow
  dsc : List DscRow
  crls : List CrlRow
  revoked_certificate_list : List RevokedRow
  deriving DecidableEq, Repr

/-- Fault model of the database connection: fault k is the exception that
the k-th SQL statement executed inside the transaction raises, if any
(constraint violation, connectivity loss, and so on). -/
structure DbOracle where
  fault : Nat → Option PyException

/-- One cur.execute call: consult the fault oracle at the current
statement counter, then apply the row effect and advance the counter. -/
def curExecute (o : DbOracle) (effect : DbState → DbState) :
    DbState × Nat → Except PyException (DbState × Nat)
  | (db, k) =>
    match o.fault k with
    | some e => .error e
    | none => .ok (effect db, k + 1)

/-- Embeds _delete_all (repository.py line 110): four DELETE statements in
child-to-parent order (revoked entries, CRLs, DSCs, root CAs). -/
def deleteAll (o : DbOracle) (st : DbState × Nat) : Except PyException (DbState × Nat) :=
  match curExecute o (fun db => { db with revoked_certificate_list := [] }) st with
  | .error e => .error e
  | .ok st1 =>
    match curExecute o (fun db => { db with crls := [] }) st1 with
    | .error e => .error e
    | .ok st2 =>
      match curExecute o (fun db => { db with dsc := [] }) st2 with
      | .error e => .error e
      | .ok st3 => curExecute o (fun db => { db with root_ca := [] }) st3

/-- Attribute lookup of master_list_issuer on a CertificateRecord.
CertificateRecord is declared in domain/models.py as a frozen dataclass
with slots=True and no master_list_issuer field, so this lookup raises
AttributeError; _insert_root_cas (repository.py line 141) nevertheless
reads cert.master_list_issuer while building its INSERT parameters. -/
def certMasterListIssuer (_cert : CertificateRecord) : Except PyException (Option String) :=
  .error { excName := "AttributeError", excMsg := "CertificateRecord object has no attribute master_list_issuer" }

/-- The for-loop of _insert_root_cas (repository.py line 132): for each
record in order, build the parameter tuple (this reads
cert.master_list_issuer) and execute the INSERT. -/
def insertRootCasLoop (o : DbOracle) :
    List CertificateRecord → DbState × Nat → Except PyException (DbState × Nat)
  | [], st => .ok st
  | cert :: rest, st =>
    match certMasterListIssuer cert with
    | .error e => .error e
    | .ok master_list_issuer =>
      match curExecute o (fun db => { db with root_ca := db.root_ca ++ [{ id := cert.id, certificate := cert.certificate, subject_key_identifier := cert.subject_key_identifier, authority_key_identifier := cert.authority_key_identifier, issuer := cert.issuer, master_list_issuer := master_list_issuer, x_500_issuer := cert.x_500_issuer, source := cert.source, isn := cert.isn, updated_at := cert.updated_at }] }) st with
      | .error e => .error e
      | .ok st1 => insertRootCasLoop o rest st1

/-- Embeds _insert_root_cas (repository.py line 126): run the insert loop
and return len(certs). -/
def insertRootCas (o : DbOracle) (certs : List CertificateRecord) (st : DbState × Nat) :
    Except PyException (Nat × (DbState × Nat)) :=
  match insertRootCasLoop o certs st with
  | .error e => .error e
  | .ok st1 => .ok (certs.length, st1)

/-- The for-loop of _insert_dscs (repository.py line 156). -/
def insertDscsLoop (o : DbOracle) :
    List CertificateRecord → DbState × Nat → Except PyException (DbState × Nat)
  | [], st => .ok st
  | cert :: rest, st =>
    match curExecute o (fun db => { db with dsc := db.dsc ++ [{ id := cert.id, certificate := cert.certificate, subject_key_identifier := cert.subject_key_identifier, authority_key_identifier := cert.authority_key_identifier, issuer := cert.issuer, x_500_issuer := cert.x_500_issuer, source := cert.source, isn := cert.isn, updated_at := cert.updated_at }] }) st with
    | .error e => .error e
    | .ok st1 => insertDscsLoop o rest st1

/-- Embeds _insert_dscs (repository.py line 150). -/
def insertDscs (o : DbOracle) (certs : List CertificateRecord) (st : DbState × Nat) :
    Except PyException (Nat × (DbState × Nat)) :=
  match insertDscsLoop o certs st with
  | .error e => .error e
  | .ok st1 => .ok (certs.length, st1)

/-- The for-loop of _insert_crls (repository.py line 175). -/
def insertCrlsLoop (o : DbOracle) :
    List CrlRecord → DbState × Nat → Except PyException (DbState × Nat)
  | [], st => .ok st
  | crl :: rest, st =>
    match curExecute o (fun db => { db with crls := db.crls ++ [{ id := crl.id, crl := crl.crl, source := crl.source, issuer := crl.issuer, country := crl.country, updated_at := crl.updated_at }] }) st with
    | .error e => .error e
    | .ok st1 => insertCrlsLoop o rest st1

/-- Embeds _insert_crls (repository.py line 173). -/
def insertCrls (o : DbOracle) (crls : List CrlRecord) (st : DbState × Nat) :
    Except PyException (Nat × (DbState × Nat)) :=
  match insertCrlsLoop o crls st with
  | .error e => .error e
  | .ok st1 => .ok (crls.length, st1)

/-- The for-loop of _insert_revoked (repository.py line 188). -/
def insertRevokedLoop (o : DbOracle) :
    List RevokedCertificateRecord → DbState × Nat → Except PyException (DbState × Nat)
  | [], st => .ok st
  | rec :: rest, st =>
    match curExecute o (fun db => { db with revoked_certificate_list := db.revoked_certificate_list ++ [{ id := rec.id, source := rec.source, country := rec.country, isn := rec.isn, crl := rec.crl, revocation_reason := rec.revocation_reason, revocation_date := rec.revocation_date, updated_at := rec.updated_at }] }) st with
    | .error e => .error e
    | .ok st1 => insertRevokedLoop o rest st1

/-- Embeds _insert_revoked (repository.py line 182). -/
def insertRevoked (o : DbOracle) (revoked : List RevokedCertificateRecord) (st : DbState × Nat) :
    Except PyException (Nat × (DbState × Nat)) :=
  match insertRevokedLoop o revoked st with
  | .error e => .error e
  | .ok st1 => .ok (revoked.length, st1)

/-- Embeds _insert_all (repository.py line 117): insert the four record
collections in order, accumulating the row count. -/
def insertAll (o : DbOracle) (payload : MasterListPayload) (st : DbState × Nat) :
    Except PyException (Nat × (DbState × Nat)) :=
  match insertRootCas o payload.root_cas st with
  | .error e => .error e
  | .ok (n1, st1) =>
    match insertDscs o payload.dscs st1 with
    | .error e => .error e
    | .ok (n2, st2) =>
      match insertCrls o payload.crls st2 with
      | .error e => .error e
      | .ok (n3, st3) =>
        match insertRevoked o payload.revoked_certificates st3 with
        | .error e => .error e
        | .ok (n4, st4) => .ok (0 + n1 + n2 + n3 + n4, st4)

/-- Embeds _transactional_replace (repository.py line 90): inside the one
transaction, delete all rows then insert all records, returning the row
count. -/
def transactionalReplaceBody (o : DbOracle) (payload : MasterListPayload)
    (st : DbState × Nat) : Except PyException (Nat × (DbState × Nat)) :=
  match deleteAll o st with
  | .error e => .error e
  | .ok st1 => insertAll o payload st1

/-- Model of `with conn.transaction()` of psycopg as _transactional_replace
relies on it: the body runs against the current database state with a
fresh statement counter; on success its effects are committed, on a
raised exception the transaction is rolled back (no effect escapes) and
the exception propagates. -/
def withTransaction (o : DbOracle) (payload : MasterListPayload) (db : DbState) :
    Except PyException (Nat × DbState) :=
  match transactionalReplaceBody o payload (db, 0) with
  | .error e => .error e
  | .ok (rows, (db1, _)) => .ok (rows, db1)

/-- Embeds PsycopgCertificateRepository.store (repository.py line 77): the
transactional replace wrapped in Result.from_computation with
DATABASE_ERROR and the fixed message; the second component is the
database state after the call (the prior state when the transaction
rolled back). -/
def PsycopgCertificateRepository.store (o : DbOracle) (payload : MasterListPayload)
    (db : DbState) : Result Nat × DbState :=
  (Result.from_computation (fun _ => (withTransaction o payload db).map Prod.fst)
      ErrorCode.DATABASE_ERROR "Failed to persist certificates to database",
    match withTransaction o payload db with
    | .ok (_, db1) => db1
    | .error _ => db)

/-- Fault-free database oracle used by concrete evaluations. -/
def noFaultOracle : DbOracle := { fault := fun _ => none }

/-- Database oracle whose very first statement raises a connectivity
fault, used by concrete evaluations. -/
def failFirstOracle : DbOracle :=
  { fault := fun k => if k = 0 then some { excName := "OperationalError", excMsg := "connection lost" } else none }

/-- Empty database state used by concrete evaluations. -/
def emptyDb : DbState :=
  { root_ca := [], dsc := [], crls := [], revoked_certificate_list := [] }

end CertParser

open Railway

/-- C9: a Success constructed through Success.__init__ never holds a null
value and a Failure constructed through Failure.__init__ always carries a
populated error description: construction from None is rejected with
TypeError, and every successfully constructed Result wraps an actual
value or error. -/
theorem C9_result_construction_invariant :
    ∀ (T : Type),
      (@successInit T none =
        Except.error { excName := "TypeError", excMsg := "Success value must not be None" }) ∧
      (@failureInit T none =
        Except.error { excName := "TypeError", excMsg := "Failure error must not be None" }) ∧
      (∀ (v : Option T) (r : Result T), successInit v = Except.ok r →
        ∃ x, v = some x ∧ r = Result.Success x) ∧
      (∀ (e : Option FailureDescription) (r : Result T), failureInit e = Except.ok r →
        ∃ d, e = some d ∧ r = Result.Failure d) := by
  intro T
  refine ⟨rfl, rfl, ?_, ?_⟩
  · intro v r h
    cases v with
    | none => simp [successInit] at h
    | some x =>
      refine ⟨x, rfl, ?_⟩
      simpa [successInit] using h.symm
  · intro e r h
    cases e with
    | none => simp [failureInit] at h
    | some d =>
      refine ⟨d, rfl, ?_⟩
      simpa [failureInit] using h.symm

/-- C9 witness: constructing Success from the value 5 succeeds and wraps 5;
constructing Failure from a populated description succeeds and wraps it. -/
theorem C9_result_construction_invariant_witness :
    ∃ x, (some 5 : Option Nat) = some x ∧
      (Result.Success 5 : Result Nat) = Result.Success x := by
  exact (C9_result_construction_invariant Nat).2.2.1 (some 5) (Result.Success 5) rfl

/-- C10: two Failures compare equal exactly when their error codes and
messages agree (the creation timestamp and the causing exception are
ignored), two Successes compare equal exactly when their values agree,
and a Success never compares equal to a Failure. -/
theorem C10_result_equality :
    ∀ (T : Type) [inst : DecidableEq T] (v w : T) (d e : FailureDescription),
      (resultEq (Result.Success v) (Result.Success w) = true ↔ v = w) ∧
      (@resultEq T inst (Result.Failure d) (Result.Failure e) = true ↔
        d.code = e.code ∧ d.message = e.message) ∧
      resultEq (Result.Success v) (Result.Failure d) = false ∧
      resultEq (Result.Failure d) (Result.Success v) = false := by
  intro T inst v w d e
  refine ⟨?_, ?_, rfl, rfl⟩
  · simp [resultEq]
  · simp [resultEq]

/-- C10 witness: two Failures with the same code and message but different
timestamps and causing exceptions compare equal. -/
theorem C10_result_equality_witness :
    @resultEq Nat instDecidableEqNat
      (Result.Failure { code := ErrorCode.NOT_FOUND, message := "gone", exception := none, timestamp := 1 })
      (Result.Failure { code := ErrorCode.NOT_FOUND, message := "gone", exception := some { excName := "KeyError", excMsg := "k" }, timestamp := 2 }) = true := by
  exact ((C10_result_equality Nat 0 0
      { code := ErrorCode.NOT_FOUND, message := "gone", exception := none, timestamp := 1 }
      { code := ErrorCode.NOT_FOUND, message := "gone", exception := some { excName := "KeyError", excMsg := "k" }, timestamp := 2 }).2.1).2
    ⟨rfl, rfl⟩

open CertParser

/-- A thunk over Unit equals the constant thunk of its value at unit. -/
theorem Railway.thunkEta {T : Type} (x : Unit → Result T) : (fun _ : Unit => x ()) = x :=
  funext fun u => by cases u; rfl

/-- C8: constructing a composable execution context from zero contexts is a
construction-time ValueError; from a non-empty ordered list it succeeds,
and execution runs the first-listed context outermost around the
composition of the remaining ones, the empty tail running the computation
itself, so the last-listed context sits innermost. -/
theorem C8_composable_context :
    ∀ (T : Type) (c : ExecutionContext T) (cs : List (ExecutionContext T))
      (comp : Unit → Result T),
      composableInit ([] : List (ExecutionContext T)) =
        Except.error { excName := "ValueError", excMsg := "At least one execution context is required" } ∧
      composableInit (c :: cs) = Except.ok { contexts := c :: cs } ∧
      ComposableExecutionContext.execute { contexts := c :: cs } comp =
        c.execute (fun _ => ComposableExecutionContext.execute { contexts := cs } comp) ∧
      ComposableExecutionContext.execute { contexts := ([] : List (ExecutionContext T)) } comp =
        comp () := by
  intro T c cs comp
  refine ⟨rfl, rfl, ?_, rfl⟩
  show ((c :: cs).reverse.foldl (fun wrapped ctx => fun _ => ctx.execute wrapped) comp) () = _
  rw [List.reverse_cons, List.foldl_append]
  exact congrArg c.execute
    (Railway.thunkEta (cs.reverse.foldl (fun wrapped ctx => fun _ => ctx.execute wrapped) comp)).symm

/-- C3: the pipeline chains credential acquisition, download, extraction
and persistence through flat_map; a Failure at stage k yields that very
Failure as the final Result whatever the later stage functions are (they
are never invoked), and when every stage succeeds the final Result is the
Success returned by the store stage. -/
theorem C3_pipeline_short_circuit :
    ∀ (accessAcquireToken : Result String)
      (sfcAcquireToken : String → Result String)
      (download : AuthCredentials → Result (List Nat))
      (parserParse : List Nat → Result MasterListPayload)
      (repositoryStore : MasterListPayload → Result Nat)
      (e : FailureDescription),
      (accessAcquireToken = Result.Failure e →
        run_pipeline accessAcquireToken sfcAcquireToken download parserParse repositoryStore =
          Result.Failure e) ∧
      (∀ t, accessAcquireToken = Result.Success t → sfcAcquireToken t = Result.Failure e →
        run_pipeline accessAcquireToken sfcAcquireToken download parserParse repositoryStore =
          Result.Failure e) ∧
      (∀ t s, accessAcquireToken = Result.Success t → sfcAcquireToken t = Result.Success s →
        download { access_token := t, sfc_token := s } = Result.Failure e →
        run_pipeline accessAcquireToken sfcAcquireToken download parserParse repositoryStore =
          Result.Failure e) ∧
      (∀ t s b, accessAcquireToken = Result.Success t → sfcAcquireToken t = Result.Success s →
        download { access_token := t, sfc_token := s } = Result.Success b →
        parserParse b = Result.Failure e →
        run_pipeline accessAcquireToken sfcAcquireToken download parserParse repositoryStore =
          Result.Failure e) ∧
      (∀ t s b p n, accessAcquireToken = Result.Success t → sfcAcquireToken t = Result.Success s →
        download { access_token := t, sfc_token := s } = Result.Success b →
        parserParse b = Result.Success p →
        repositoryStore p = Result.Success n →
        run_pipeline accessAcquireToken sfcAcquireToken download parserParse repositoryStore =
          Result.Success n) := by
  intro atp sfc dl ps st e
  refine ⟨?_, ?_, ?_, ?_, ?_⟩
  · intro h
    subst h
    rfl
  · intro t h1 h2
    subst h1
    simp [run_pipeline, Result.flat_map, buildCredentials, Result.map, h2]
  · intro t s h1 h2 h3
    subst h1
    simp [run_pipeline, Result.flat_map, buildCredentials, Result.map, h2, h3]
  · intro t s b h1 h2 h3 h4
    subst h1
    simp [run_pipeline, Result.flat_map, buildCredentials, Result.map, h2, h3, h4]
  · intro t s b p n h1 h2 h3 h4 h5
    subst h1
    simp [run_pipeline, Result.flat_map, buildCredentials, Result.map, h2, h3, h4, h5]

/-- C3 witness: with credential and download stages succeeding and the
extraction stage failing with a validation error, the pipeline returns
exactly that failure even though a store stage returning Success 7 was
supplied. -/
theorem C3_pipeline_short_circuit_witness :
    run_pipeline (Result.Success "a") (fun _ => Result.Success "b")
      (fun _ => Result.Success [1])
      (fun _ => Result.Failure { code := ErrorCode.VALIDATION_ERROR, message := "bad" })
      (fun _ => Result.Success 7) =
      Result.Failure { code := ErrorCode.VALIDATION_ERROR, message := "bad" } := by
  exact (C3_pipeline_short_circuit (Result.Success "a") (fun _ => Result.Success "b")
      (fun _ => Result.Success [1])
      (fun _ => Result.Failure { code := ErrorCode.VALIDATION_ERROR, message := "bad" })
      (fun _ => Result.Success 7)
      { code := ErrorCode.VALIDATION_ERROR, message := "bad" }).2.2.2.1
    "a" "b" [1] rfl rfl rfl rfl

/-- A built certificate record keeps the DER bytes it was built from. -/
theorem derToCertificateRecord_keeps_der (W : CmsWorld) (der_bytes : List Nat)
    (source : String) (s : Nat) (b : CertificateRecord) (s1 : Nat) :
    derToCertificateRecord W der_bytes source s = .ok (b, s1) →
    b.certificate = der_bytes := by
  unfold derToCertificateRecord
  cases W.loadDerCertificate der_bytes with
  | error e => intro h; cases h
  | ok cert =>
    intro h
    cases h
    rfl

/-- The certificate records built by the mapSupply loop carry the dumped
DER bytes of their source list, in order. -/
theorem mapSupply_keeps_der (W : CmsWorld) (source : String) :
    ∀ (ders : List (List Nat)) (s : Nat) (recs : List CertificateRecord) (s1 : Nat),
      mapSupply (fun der_bytes => derToCertificateRecord W der_bytes source) ders s =
        .ok (recs, s1) →
      recs.map (fun c => c.certificate) = ders := by
  intro ders
  induction ders with
  | nil =>
    intro s recs s1 h
    cases h
    rfl
  | cons a rest ih =>
    intro s recs s1 h
    unfold mapSupply at h
    cases hf : derToCertificateRecord W a source s with
    | error e => simp only [hf] at h; exact Except.noConfusion h
    | ok bpair =>
      obtain ⟨b, sb⟩ := bpair
      simp only [hf] at h
      cases hr : mapSupply (fun der_bytes => derToCertificateRecord W der_bytes source) rest sb with
      | error e => simp only [hr] at h; exact Except.noConfusion h
      | ok rpair =>
        obtain ⟨bs, sc⟩ := rpair
        simp only [hr, Except.ok.injEq, Prod.mk.injEq] at h
        obtain ⟨hrec, hsc⟩ := h
        subst hrec
        simp [derToCertificateRecord_keeps_der W a source s b sb hf, ih sb bs sc hr]

/-- A successful parse comes from a successful internal _do_parse run. -/
theorem parse_success_doParse (W : CmsWorld) (raw_bin : List Nat) (s : Nat)
    (p : MasterListPayload) :
    CmsMasterListParser.parse W raw_bin s = Result.Success p →
    ∃ s3, doParse W raw_bin s = .ok (p, s3) := by
  unfold CmsMasterListParser.parse Result.from_computation
  cases h : doParse W raw_bin s with
  | ok v =>
    obtain ⟨q, s3⟩ := v
    intro hp
    simp only [h, Except.map, Result.success] at hp
    cases hp
    exact ⟨s3, rfl⟩
  | error e =>
    intro hp
    simp only [h, Except.map, Result.failure] at hp
    cases hp

/-- Shape of a successful _do_parse run: the four phases succeed in order
and the payload combines inner certificates first, then outer ones, an
empty document-signer collection, and the CRL phase output. -/
theorem doParse_success_shape (W : CmsWorld) (raw_bin : List Nat) (s : Nat)
    (p : MasterListPayload) (s3 : Nat) :
    doParse W raw_bin s = .ok (p, s3) →
    ∃ sd outer_certs s1 inner_certs s2 crlsrev,
      W.contentInfoLoad raw_bin = .ok sd ∧
      extractOuterCertificates W sd "icao-masterlist" s = .ok (outer_certs, s1) ∧
      extractInnerCertificates W sd "icao-masterlist" s1 = .ok (inner_certs, s2) ∧
      extractCrls W sd "icao-masterlist" s2 = .ok (crlsrev, s3) ∧
      p = { root_cas := inner_certs ++ outer_certs, dscs := [], crls := crlsrev.1, revoked_certificates := crlsrev.2 } := by
  intro h
  unfold doParse at h
  cases hinfo : W.contentInfoLoad raw_bin with
  | error e => simp only [hinfo] at h; exact Except.noConfusion h
  | ok sd =>
    simp only [hinfo] at h
    cases houter : extractOuterCertificates W sd "icao-masterlist" s with
    | error e => simp only [houter] at h; exact Except.noConfusion h
    | ok opair =>
      obtain ⟨outer_certs, s1⟩ := opair
      simp only [houter] at h
      cases hinner : extractInnerCertificates W sd "icao-masterlist" s1 with
      | error e => simp only [hinner] at h; exact Except.noConfusion h
      | ok ipair =>
        obtain ⟨inner_certs, s2⟩ := ipair
        simp only [hinner] at h
        cases hcrls : extractCrls W sd "icao-masterlist" s2 with
        | error e => simp only [hcrls] at h; exact Except.noConfusion h
        | ok cpair =>
          obtain ⟨⟨crl_records, revoked_records⟩, sc⟩ := cpair
          simp only [hcrls, Except.ok.injEq, Prod.mk.injEq] at h
          obtain ⟨hp, hs⟩ := h
          subst hp
          subst hs
          exact ⟨sd, outer_certs, s1, inner_certs, s2, (crl_records, revoked_records), rfl, houter, hinner, hcrls, rfl⟩

/-- C1: for every input byte sequence, every fresh-identifier supply and
every behaviour of the external decoders, the parse operation never
raises: it returns either a Success or a Failure classified
TECHNICAL_ERROR carrying the fixed descriptive message. -/
theorem C1_parse_never_raises :
    ∀ (W : CmsWorld) (raw_bin : List Nat) (s : Nat),
      (∃ p, CmsMasterListParser.parse W raw_bin s = Result.Success p) ∨
      (∃ e, CmsMasterListParser.parse W raw_bin s =
        Result.Failure { code := ErrorCode.TECHNICAL_ERROR, message := "Failed to parse CMS Master List binary", exception := some e }) := by
  intro W raw_bin s
  unfold CmsMasterListParser.parse Result.from_computation
  cases h : doParse W raw_bin s with
  | ok v => exact Or.inl ⟨v.1, by simp [h, Except.map, Result.success]⟩
  | error e => exact Or.inr ⟨e, by simp [h, Except.map, Result.failure]⟩

/-- Unfolding equation of mapSupplyPure on a non-empty list. -/
theorem mapSupplyPure_cons {A B : Type} (f : A → Nat → B × Nat) (a : A)
    (rest : List A) (s : Nat) :
    mapSupplyPure f (a :: rest) s =
      ((f a s).1 :: (mapSupplyPure f rest (f a s).2).1,
        (mapSupplyPure f rest (f a s).2).2) := rfl

/-- The revoked records built by the comprehension of _parse_single_crl
are one per revoked entry and every one references the given CRL
identifier. -/
theorem mapSupplyPure_buildRevoked (cid : Nat) (source : String) (country : Option String) :
    ∀ (entries : List RevokedCert) (s : Nat),
      (mapSupplyPure (fun rc => buildRevokedRecord rc (some cid) source country) entries s).1.length = entries.length ∧
      ∀ r ∈ (mapSupplyPure (fun rc => buildRevokedRecord rc (some cid) source country) entries s).1, r.crl = some cid := by
  intro entries
  induction entries with
  | nil =>
    intro s
    exact ⟨rfl, by intro r hr; cases hr⟩
  | cons a rest ih =>
    intro s
    rw [mapSupplyPure_cons]
    constructor
    · simpa using ((ih ((buildRevokedRecord a (some cid) source country s).2)).1)
    · intro r hr
      rcases List.mem_cons.mp hr with hhead | htail
      · subst hhead
        rfl
      · exact (ih ((buildRevokedRecord a (some cid) source country s).2)).2 r htail

/-- Evaluation of the CRL loop on a one-element CRL set whose load
succeeds. -/
theorem extractCrlsLoop_single (W : CmsWorld) (source : String) (crl_der : List Nat)
    (crl_obj : X509Crl) (s : Nat) (h : W.loadDerCrl crl_der = .ok crl_obj) :
    extractCrlsLoop W source [crl_der] s =
      .ok (([{ crl := crl_der, id := s, source := some source, issuer := some crl_obj.issuer_rfc4514, country := extractCountryFromIssuer crl_obj.issuer_attrs }],
        (mapSupplyPure (fun rc => buildRevokedRecord rc (some s) source (extractCountryFromIssuer crl_obj.issuer_attrs)) crl_obj.revoked (s + 1)).1 ++ []),
        (mapSupplyPure (fun rc => buildRevokedRecord rc (some s) source (extractCountryFromIssuer crl_obj.issuer_attrs)) crl_obj.revoked (s + 1)).2) := by
  unfold extractCrlsLoop parseSingleCrl
  simp only [h]
  rfl

/-- C4: for every valid envelope (decoded SignedData with an outer
certificate set and a loadable inner Master List), a successful
extraction yields root-authority records whose DER bytes are exactly the
inner certList followed by the outer certificates, hence exactly N+M
records with all inner records first. -/
theorem C4_root_cas_inner_then_outer :
    ∀ (W : CmsWorld) (raw_bin : List Nat) (s : Nat) (sd : SignedData)
      (outers : List (List Nat)) (inner_bytes : List Nat) (ml : CscaMasterList)
      (p : MasterListPayload),
      W.contentInfoLoad raw_bin = .ok sd →
      sd.certificates = some outers →
      sd.encap_content = some inner_bytes →
      W.masterListLoad inner_bytes = .ok ml →
      CmsMasterListParser.parse W raw_bin s = Result.Success p →
      p.root_cas.map (fun c => c.certificate) = ml.cert_list ++ outers ∧
      p.root_cas.length = ml.cert_list.length + outers.length := by
  intro W raw_bin s sd outers inner_bytes ml p hinfo hcerts hencap hml hparse
  obtain ⟨s3, hdo⟩ := parse_success_doParse W raw_bin s p hparse
  obtain ⟨sd', outer_certs, s1, inner_certs, s2, crlsrev, hinfo', houter, hinner, hcrls, hp⟩ :=
    doParse_success_shape W raw_bin s p s3 hdo
  rw [hinfo] at hinfo'
  injection hinfo' with hsd
  subst hsd
  unfold extractOuterCertificates at houter
  simp only [hcerts] at houter
  unfold extractInnerCertificates at hinner
  simp only [hencap, hml] at hinner
  have houterd := mapSupply_keeps_der W "icao-masterlist" outers s outer_certs s1 houter
  have hinnerd := mapSupply_keeps_der W "icao-masterlist" ml.cert_list s1 inner_certs s2 hinner
  subst hp
  constructor
  · simp [List.map_append, hinnerd, houterd]
  · have h1 : inner_certs.length = ml.cert_list.length := by
      simpa using congrArg List.length hinnerd
    have h2 : outer_certs.length = outers.length := by
      simpa using congrArg List.length houterd
    simp [List.length_append, h1, h2]

/-- C4 witness: the fixture envelope with two inner and one outer
certificate extracts to three root-authority records whose DER bytes are
the two inner certificates followed by the outer one. -/
theorem C4_root_cas_inner_then_outer_witness :
    ({ root_cas := [{ certificate := [2], id := 1, subject_key_identifier := some "ab", authority_key_identifier := some "cd", issuer := some "CN=Fixture", x_500_issuer := some [48], source := some "icao-masterlist", isn := some "0x1a" }, { certificate := [3], id := 2, subject_key_identifier := some "ab", authority_key_identifier := some "cd", issuer := some "CN=Fixture", x_500_issuer := some [48], source := some "icao-masterlist", isn := some "0x1a" }, { certificate := [1], id := 0, subject_key_identifier := some "ab", authority_key_identifier := some "cd", issuer := some "CN=Fixture", x_500_issuer := some [48], source := some "icao-masterlist", isn := some "0x1a" }], dscs := [], crls := [], revoked_certificates := [] } : MasterListPayload).root_cas.map (fun c => c.certificate) = [[2], [3]] ++ [[1]] ∧
    ({ root_cas := [{ certificate := [2], id := 1, subject_key_identifier := some "ab", authority_key_identifier := some "cd", issuer := some "CN=Fixture", x_500_issuer := some [48], source := some "icao-masterlist", isn := some "0x1a" }, { certificate := [3], id := 2, subject_key_identifier := some "ab", authority_key_identifier := some "cd", issuer := some "CN=Fixture", x_500_issuer := some [48], source := some "icao-masterlist", isn := some "0x1a" }, { certificate := [1], id := 0, subject_key_identifier := some "ab", authority_key_identifier := some "cd", issuer := some "CN=Fixture", x_500_issuer := some [48], source := some "icao-masterlist", isn := some "0x1a" }], dscs := [], crls := [], revoked_certificates := [] } : MasterListPayload).root_cas.length = ([[2], [3]] : List (List Nat)).length + ([[1]] : List (List Nat)).length := by
  exact C4_root_cas_inner_then_outer fixtureWorldA [0] 0
    { certificates := some [[1]], encap_content := some [0], crls := none }
    [[1]] [0] { version := 0, cert_list := [[2], [3]] } _ rfl rfl rfl rfl (by decide)

/-- C5: for every valid envelope whose CRL set holds exactly one loadable
revocation list with K revoked entries, a successful extraction yields
exactly one CrlRecord and exactly K RevokedCertificateRecords, and the
CRL reference of every revoked record equals the identifier of a
CrlRecord of the same extraction pass (its parent). -/
theorem C5_one_crl_k_revoked :
    ∀ (W : CmsWorld) (raw_bin : List Nat) (s : Nat) (sd : SignedData)
      (crl_der : List Nat) (crl_obj : X509Crl) (p : MasterListPayload),
      W.contentInfoLoad raw_bin = .ok sd →
      sd.crls = some [crl_der] →
      W.loadDerCrl crl_der = .ok crl_obj →
      CmsMasterListParser.parse W raw_bin s = Result.Success p →
      p.crls.length = 1 ∧
      p.revoked_certificates.length = crl_obj.revoked.length ∧
      ∀ r ∈ p.revoked_certificates, ∃ c ∈ p.crls, r.crl = some c.id := by
  intro W raw_bin s sd crl_der crl_obj p hinfo hcrlset hload hparse
  obtain ⟨s3, hdo⟩ := parse_success_doParse W raw_bin s p hparse
  obtain ⟨sd', outer_certs, s1, inner_certs, s2, crlsrev, hinfo', houter, hinner, hcrls, hp⟩ :=
    doParse_success_shape W raw_bin s p s3 hdo
  rw [hinfo] at hinfo'
  injection hinfo' with hsd
  subst hsd
  unfold extractCrls at hcrls
  simp only [hcrlset] at hcrls
  rw [extractCrlsLoop_single W "icao-masterlist" crl_der crl_obj s2 hload] at hcrls
  simp only [Except.ok.injEq, Prod.mk.injEq] at hcrls
  obtain ⟨hcr, hs3⟩ := hcrls
  subst hp
  obtain ⟨hlen, hmem⟩ :=
    mapSupplyPure_buildRevoked s2 "icao-masterlist" (extractCountryFromIssuer crl_obj.issuer_attrs) crl_obj.revoked (s2 + 1)
  refine ⟨?_, ?_, ?_⟩
  · simp [← hcr]
  · simp [← hcr, hlen]
  · intro r hr
    refine ⟨{ crl := crl_der, id := s2, source := some "icao-masterlist", issuer := some crl_obj.issuer_rfc4514, country := extractCountryFromIssuer crl_obj.issuer_attrs }, ?_, ?_⟩
    · simp [← hcr]
    · apply hmem
      have : crlsrev.2 = (mapSupplyPure (fun rc => buildRevokedRecord rc (some s2) "icao-masterlist" (extractCountryFromIssuer crl_obj.issuer_attrs)) crl_obj.revoked (s2 + 1)).1 ++ [] := by
        rw [← hcr]
      rw [this] at hr
      simpa using hr

/-- C5 witness: the fixture envelope holding one CRL with two revoked
entries extracts to exactly one CrlRecord and two revoked records. -/
theorem C5_one_crl_k_revoked_witness :
    ({ root_cas := [], dscs := [], crls := [{ crl := [7], id := 0, source := some "icao-masterlist", issuer := some "CN=CA,C=DE", country := some "DE" }], revoked_certificates := [{ id := 1, source := some "icao-masterlist", country := some "DE", isn := some "0x1", crl := some 0, revocation_reason := none, revocation_date := some 5 }, { id := 2, source := some "icao-masterlist", country := some "DE", isn := some "0x2", crl := some 0, revocation_reason := some "keyCompromise", revocation_date := some 6 }] } : MasterListPayload).crls.length = 1 ∧
    ({ root_cas := [], dscs := [], crls := [{ crl := [7], id := 0, source := some "icao-masterlist", issuer := some "CN=CA,C=DE", country := some "DE" }], revoked_certificates := [{ id := 1, source := some "icao-masterlist", country := some "DE", isn := some "0x1", crl := some 0, revocation_reason := none, revocation_date := some 5 }, { id := 2, source := some "icao-masterlist", country := some "DE", isn := some "0x2", crl := some 0, revocation_reason := some "keyCompromise", revocation_date := some 6 }] } : MasterListPayload).revoked_certificates.length = ([{ serial_number := 1, revocation_date_utc := 5 }, { serial_number := 2, reason_ext := some "keyCompromise", revocation_date_utc := 6 }] : List RevokedCert).length := by
  have h := C5_one_crl_k_revoked fixtureWorldB [0] 0
    { certificates := none, encap_content := none, crls := some [[7]] }
    [7] { issuer_rfc4514 := "CN=CA,C=DE", issuer_attrs := [{ oid := "2.5.4.6", value := "DE" }], revoked := [{ serial_number := 1, revocation_date_utc := 5 }, { serial_number := 2, reason_ext := some "keyCompromise", revocation_date_utc := 6 }] }
    { root_cas := [], dscs := [], crls := [{ crl := [7], id := 0, source := some "icao-masterlist", issuer := some "CN=CA,C=DE", country := some "DE" }], revoked_certificates := [{ id := 1, source := some "icao-masterlist", country := some "DE", isn := some "0x1", crl := some 0, revocation_reason := none, revocation_date := some 5 }, { id := 2, source := some "icao-masterlist", country := some "DE", isn := some "0x2", crl := some 0, revocation_reason := some "keyCompromise", revocation_date := some 6 }] }
    rfl rfl rfl (by decide)
  exact ⟨h.1, h.2.1⟩

/-- C7 (evaluating the intended handler semantics, cf. the C7 record): a
certificate carrying neither a SubjectKeyIdentifier nor an
AuthorityKeyIdentifier extension yields null identifier fields and
extraction of the envelope containing it still succeeds. -/
theorem C7_missing_extensions_leave_null :
    extractSki { issuer_rfc4514 := "CN=Bare", issuer_public_bytes := [48], serial_number := 0 } = none ∧
    extractAki { issuer_rfc4514 := "CN=Bare", issuer_public_bytes := [48], serial_number := 0 } = none ∧
    CmsMasterListParser.parse fixtureWorldC [0] 0 = Result.Success { root_cas := [{ certificate := [9], id := 0, subject_key_identifier := none, authority_key_identifier := none, issuer := some "CN=Bare", x_500_issuer := some [48], source := some "icao-masterlist", isn := some "0x0" }], dscs := [], crls := [], revoked_certificates := [] } := by
  exact ⟨rfl, rfl, by decide⟩

/-- C2 (evaluating the code at the claim scenario): the payload with
exactly two root-authority certificates and nothing else has total_items
2, yet storing it does not return Success(2): building the first INSERT
parameter tuple reads cert.master_list_issuer, CertificateRecord
declares no such field, and the resulting AttributeError is converted
into a DATABASE_ERROR Failure while the database keeps its prior
content. -/
theorem C2_store_two_root_cas_fails :
    ({ root_cas := [{ certificate := [1], id := 0 }, { certificate := [2], id := 1 }] } : MasterListPayload).total_items = 2 ∧
    PsycopgCertificateRepository.store noFaultOracle { root_cas := [{ certificate := [1], id := 0 }, { certificate := [2], id := 1 }] } emptyDb =
      (Result.Failure { code := ErrorCode.DATABASE_ERROR, message := "Failed to persist certificates to database", exception := some { excName := "AttributeError", excMsg := "CertificateRecord object has no attribute master_list_issuer" } }, emptyDb) := by
  exact ⟨rfl, by decide⟩

/-- C6: for every payload, prior database state and fault behaviour of
the connection, the store operation returns instead of raising, and
whenever it returns a Failure the whole transaction was rolled back —
the database state after the call is exactly the prior state — and the
Failure is classified DATABASE_ERROR with the fixed message. -/
theorem C6_store_rollback_database_error :
    ∀ (o : DbOracle) (payload : MasterListPayload) (db : DbState),
      (PsycopgCertificateRepository.store o payload db).1.is_failure = true →
      (PsycopgCertificateRepository.store o payload db).2 = db ∧
      ∃ e, (PsycopgCertificateRepository.store o payload db).1 =
        Result.Failure { code := ErrorCode.DATABASE_ERROR, message := "Failed to persist certificates to database", exception := some e } := by
  intro o payload db hf
  cases h : withTransaction o payload db with
  | ok v =>
    exfalso
    simp [PsycopgCertificateRepository.store, Result.from_computation, h, Except.map,
      Result.success, Result.is_failure] at hf
  | error e =>
    refine ⟨?_, e, ?_⟩
    · simp [PsycopgCertificateRepository.store, h]
    · simp [PsycopgCertificateRepository.store, Result.from_computation, h, Except.map,
        Result.failure]

/-- C6 witness: with the first statement of the transaction raising a
connectivity fault, storing a one-CRL payload over a database holding
one CRL row leaves that row in place and returns the DATABASE_ERROR
failure. -/
theorem C6_store_rollback_database_error_witness :
    (PsycopgCertificateRepository.store failFirstOracle { crls := [{ crl := [7], id := 0 }] } { root_ca := [], dsc := [], crls := [{ id := 5, crl := [9], source := none, issuer := none, country := none, updated_at := none }], revoked_certificate_list := [] }).2 = { root_ca := [], dsc := [], crls := [{ id := 5, crl := [9], source := none, issuer := none, country := none, updated_at := none }], revoked_certificate_list := [] } ∧
    ∃ e, (PsycopgCertificateRepository.store failFirstOracle { crls := [{ crl := [7], id := 0 }] } { root_ca := [], dsc := [], crls := [{ id := 5, crl := [9], source := none, issuer := none, country := none, updated_at := none }], revoked_certificate_list := [] }).1 =
      Result.Failure { code := ErrorCode.DATABASE_ERROR, message := "Failed to persist certificates to database", exception := some e } := by
  exact C6_store_rollback_database_error failFirstOracle
    { crls := [{ crl := [7], id := 0 }] }
    { root_ca := [], dsc := [], crls := [{ id := 5, crl := [9], source := none, issuer := none, country := none, updated_at := none }], revoked_certificate_list := [] }
    (by decide)
